import Mathlib

/-!
deckfs: verification of the frozen claims

Shallow embedding of the parts of the `deckfs` daemon that the claims
C1–C10 are about, with one theorem per claim.

Conventions used throughout:

* Python `float` time stamps and intervals are modelled as `ℚ` (no float
  arithmetic is performed by the modelled code, only assignment,
  subtraction and comparison).
* Callbacks are modelled by opaque identifiers (`Nat`); "calling" a
  callback is recorded as an entry in a delivery list.
* Python dictionaries keyed by strings are modelled as functions
  `String → _` (with the `defaultdict` default built in where the source
  uses one).
* Library calls whose results the modelled code merely consumes
  (`os.path.relpath`, `subprocess.run`, `Image.open`, …) are passed in as
  explicit oracle arguments, so every theorem quantifies over their
  behaviour.
* A Python exception is modelled with `Except PyExc`; a `try/except`
  block becomes a `match` on that value.
-/

/-- Python exceptions that the modelled code can raise or catch. -/
inductive PyExc where
  | timeoutExpired
  | spawnError
  | nameError
  | otherError
deriving DecidableEq, Repr

namespace Debouncer

/-- Model of the `Event` dataclass of `src/utils/debouncer.py`: `type`, `data`,
`timestamp`.  The payload type is left abstract (`α`). -/
structure Event (α : Type) where
  type : String
  data : α
  timestamp : ℚ
deriving DecidableEq, Repr

/-- State of a `Debouncer` instance (`src/utils/debouncer.py`):
`debounce_interval`, `subscribers` (a `defaultdict(list)` of callback
ids), `pending_events` (key → latest event) and the set of keys with an
armed timer (`debounce_timers`). -/
structure State (α : Type) where
  debounce_interval : ℚ
  subscribers : String → List Nat
  pending_events : String → Option (Event α)
  debounce_timers : String → Bool

/-- Model of `Debouncer.subscribe`: appends the callback to the subscriber list of
the event type (no deduplication). -/
def subscribe {α} (s : State α) (event_type : String) (callback : Nat) :
    State α :=
  { s with subscribers := fun t =>
      if t = event_type then s.subscribers t ++ [callback]
      else s.subscribers t }

/-- Model of `Debouncer.unsubscribe`: `list.remove` removes the first occurrence of
the callback, if present. -/
def unsubscribe {α} (s : State α) (event_type : String) (callback : Nat) :
    State α :=
  { s with subscribers := fun t =>
      if t = event_type then (s.subscribers t).erase callback
      else s.subscribers t }

/-- Model of `Debouncer._emit_event`: calls every subscriber of `event.type`, in
list order.  A call is recorded as a `(callback, event)` delivery. -/
def emit_event {α} (s : State α) (event : Event α) : List (Nat × Event α) :=
  (s.subscribers event.type).map (fun cb => (cb, event))

/-- Model of `Debouncer._debounce_event`: cancels the pending timer for the key,
overwrites `pending_events[key]` with the new event and re-arms a timer for
the key.  No delivery happens here. -/
def debounce_event {α} (s : State α) (event : Event α)
    (debounce_key : String) : State α :=
  { s with
    pending_events := fun k =>
      if k = debounce_key then some event else s.pending_events k
    debounce_timers := fun k =>
      if k = debounce_key then true else s.debounce_timers k }

/-- Model of `Debouncer._process_debounced_event`: pops the pending event and timer
for the key; if an event was pending it is delivered via
`_emit_event`. -/
def process_debounced_event {α} (s : State α) (debounce_key : String) :
    State α × List (Nat × Event α) :=
  let ev := s.pending_events debounce_key
  let s' : State α :=
    { s with
      pending_events := fun k =>
        if k = debounce_key then none else s.pending_events k
      debounce_timers := fun k =>
        if k = debounce_key then false else s.debounce_timers k }
  match ev with
  | some e => (s', emit_event s' e)
  | none => (s', [])

/-- Model of `Debouncer.emit`: builds the `Event` and either delivers it
immediately (no `debounce_key`) or hands it to `_debounce_event`
(deliveries then happen only when the timer fires). -/
def emit {α} (s : State α) (event_type : String) (data : α)
    (timestamp : ℚ) (debounce_key : Option String) :
    State α × List (Nat × Event α) :=
  let event : Event α := ⟨event_type, data, timestamp⟩
  match debounce_key with
  | none => (s, emit_event s event)
  | some key => (debounce_event s event key, [])

/-- A burst: a sequence of `emit` calls under the same debounce key, all
made before the pending timer fires.  Returns the final state and every
delivery made during the burst. -/
def emit_burst {α} : State α → List (Event α) → String →
    State α × List (Nat × Event α)
  | s, [], _ => (s, [])
  | s, e :: rest, key =>
      let first := emit s e.type e.data e.timestamp (some key)
      let later := emit_burst first.1 rest key
      (later.1, first.2 ++ later.2)

end Debouncer

namespace ProcessManager

/-- Constants of `ProcessManager` (`src/core/processes.py`):
`restart_limits = 5`, `restart_window = 300`. -/
def restart_limits : Nat := 5

/-- Sliding-window length in seconds (`self.restart_window = 300`). -/
def restart_window : ℚ := 300

/-- State of a `ProcessManager`: `processes` (script type → tracked
process handle, here an opaque `Nat`) and `crash_timestamps`
(a `defaultdict(list)` of restart times). -/
structure State where
  processes : String → Option Nat
  crash_timestamps : String → List ℚ

/-- The sliding-window pruning inside `restart_script`:
`[ts for ts in crash_timestamps[key] if current_time - ts < restart_window]`. -/
def prune (current_time : ℚ) (l : List ℚ) : List ℚ :=
  l.filter (fun ts => decide (current_time - ts < restart_window))

/-- Model of `ProcessManager.restart_script`: prune the crash window for the key,
append the current time; if the resulting count exceeds `restart_limits`
refuse (`False`); otherwise sleep 2 s and relaunch via `start_script`,
whose success is the `start_ok` oracle (the claim assumes the relaunch
itself always succeeds). -/
def restart_script (s : State) (current_time : ℚ) (script_type : String)
    (start_ok : Bool) : State × Bool :=
  let key := script_type
  let kept := prune current_time (s.crash_timestamps key)
  let appended := kept ++ [current_time]
  let s' : State :=
    { s with crash_timestamps := fun k =>
        if k = key then appended else s.crash_timestamps k }
  -- `if len(...) > restart_limits: return False` … else sleep 2 s and
  -- `return self.start_script(script_type)` (= `start_ok`)
  (s', if appended.length > restart_limits then false else start_ok)

/-- Model of `ProcessManager.stop_script`: if no process is tracked for the type,
nothing happens; otherwise the termination protocol runs inside
`try/except Exception` (its outcome `term`, raising or not, is caught and
only logged) and the `finally` block always deletes the tracking
record. -/
def stop_script (s : State) (script_type : String)
    (term : Except PyExc Unit) : State :=
  match s.processes script_type with
  | none => s
  | some _ =>
      -- `try: …terminate process group… except Exception: log`
      let _ := match term with
        | Except.ok _ => ()
        | Except.error _ => ()   -- caught, logged
      -- `finally: del self.processes[script_type]`
      { s with processes := fun k =>
          if k = script_type then none else s.processes k }

/-- Interpreter command table `SUPPORTED_SCRIPTS` of
`src/utils/config.py`. -/
def SUPPORTED_SCRIPTS : List (String × List String) :=
  [("sh", ["bash"]), ("py", ["python3"]), ("js", ["node"])]

/-- Model of `ProcessManager._execute_update`: runs the script synchronously via
`subprocess.run(…, timeout=30)` — which can raise `TimeoutExpired`,
modelled by the `run` oracle returning `Except.error` — and returns
`returncode == 0`.  There is no `try` here: an exception propagates to
the caller. -/
def execute_update (run : Except PyExc Int) : Except PyExc Bool :=
  match run with
  | Except.ok returncode => Except.ok (returncode == 0)
  | Except.error e => Except.error e

/-- Environment for one `start_script` call: results of the library and
helper calls it makes. -/
structure StartEnv where
  /-- `self.is_running(script_type)` for the initial "background already
  running" check. -/
  is_running : Bool
  /-- `self._find_script_file(script_type)`: the resolved script path. -/
  find_script : Option String
  /-- Result of calling the chosen executor
  (`_execute_action` / `_execute_update` / `_execute_background`):
  `Except.error` when the executor raises — e.g. the 30 s timeout of the
  synchronous update run, or a spawn exception. -/
  executor_result : Except PyExc Bool

/-- Keys of the `script_executors` table
(`{"action": …, "update": …, "background": …}`). -/
def executor_types : List String := ["action", "update", "background"]

/-- Python's `str.split(sep)` for a one-character separator, over the
character list.  `split_on_char '.' "update.py"` = `["update", "py"]`. -/
def split_on_char (sep : Char) : List Char → List (List Char)
  | [] => [[]]
  | x :: rest =>
      match split_on_char sep rest with
      | [] => if x = sep then [[], []] else [[x]]
      | g :: gs =>
          if x = sep then [] :: g :: gs
          else (x :: g) :: gs

/-- Model of `script_path.split('.')[-1]`: the extension used to pick the
interpreter. -/
def path_ext (script_path : String) : String :=
  match (split_on_char '.' script_path.toList).getLast? with
  | some cs => String.mk cs
  | none => ""

/-- Model of `ProcessManager.start_script`.  The `try` block runs the executor;
the `except Exception` handler then evaluates the log f-string
`f"Error starting {script_type} script {script_name}: {e}"`, but
`script_name` is not bound anywhere in `start_script`, so the handler
itself raises `NameError`, which propagates out of `start_script`
(`Except.error PyExc.nameError`). -/
def start_script (env : StartEnv) (script_type : String) :
    Except PyExc Bool :=
  if script_type = "background" && env.is_running then Except.ok true
  else
    -- self.stop_script(script_type) — never raises, state effect elided
    match env.find_script with
    | none => Except.ok false
    | some script_path =>
        let ext := path_ext script_path
        match SUPPORTED_SCRIPTS.lookup ext with
        | none => Except.ok false   -- "Unsupported script type", log + False
        | some _ =>
            if executor_types.contains script_type then
              match env.executor_result with
              | Except.ok b => Except.ok b
              | Except.error _ =>
                  -- except Exception as e: the f-string references the
                  -- unbound local `script_name` → NameError escapes
                  Except.error PyExc.nameError
            else Except.ok false    -- "Unknown script type", log + False

/-- A sequence of `restart_script` calls at the given times for one
script type, each with a relaunch that succeeds (the claim's
assumption); returns the final state and the list of results. -/
def restart_seq : State → List ℚ → String → State × List Bool
  | s, [], _ => (s, [])
  | s, t :: rest, key =>
      let r := restart_script s t key true
      let later := restart_seq r.1 rest key
      (later.1, r.2 :: later.2)

end ProcessManager

namespace Button

/-- Per-button state relevant to `get_image` (`src/core/button.py`):
`failed`, `continuous_draw_mode` and `last_continuous_image` (a decoded
image modelled as an opaque `Nat`). -/
structure State where
  failed : Bool
  continuous_draw_mode : Bool
  last_continuous_image : Option Nat
deriving DecidableEq, Repr

/-- The magic marker `b"DECKFS_IMG_START"` as a byte sequence. -/
def DECKFS_IMG_START : List Nat := "DECKFS_IMG_START".toList.map Char.toNat

/-- Python's `needle in haystack` on byte strings: `needle` occurs as a
contiguous subsequence of `haystack`. -/
def contains_seq (needle : List Nat) : List Nat → Bool
  | [] => needle.isEmpty
  | c :: rest => needle.isPrefixOf (c :: rest) || contains_seq needle rest

/-- Environment of one `get_image` call: the results of the filesystem
and subprocess operations it performs. -/
structure DrawEnv where
  /-- `self._find_draw_script()`: path of the `draw.*` script, if any. -/
  find_draw_script : Option String
  /-- `self.process_manager.start_script_sync_with_output("draw")`:
  `(success, image_bytes)`, or `Except.error` when it raises. -/
  run_sync_with_output : Except PyExc (Bool × List Nat)
  /-- `Image.open(BytesIO(image_bytes))`: `none` models a decode
  exception. -/
  decode : List Nat → Option Nat
  /-- `self._find_image_file()`: path of the `image.*` file, if any. -/
  find_image_file : Option String
  /-- `os.path.exists(os.path.realpath(image_path))`. -/
  path_exists : Bool
  /-- `Image.open(resolved_path)`: `none` models a load exception. -/
  open_file : Option Nat

/-- Result of a `get_image` call: the returned image, the state after the
call, and whether the call invoked the draw script synchronously
(`start_script_sync_with_output`) resp. relaunched it in streaming form
(`start_script_continuous`). -/
structure GetImageResult where
  image : Option Nat
  state : State
  invoked_sync : Bool
  started_continuous : Bool
deriving DecidableEq, Repr

/-- The "second priority" tail of `get_image`: fall back to the
`image.*` file, resolving symlinks and returning `none` on a missing
target or a load error. -/
def image_file_fallback (env : DrawEnv) (s : State)
    (invoked started : Bool) : GetImageResult :=
  match env.find_image_file with
  | none => ⟨none, s, invoked, started⟩
  | some _ =>
      if env.path_exists then
        match env.open_file with
        | some image => ⟨some image, s, invoked, started⟩
        | none => ⟨none, s, invoked, started⟩   -- exception caught → None
      else ⟨none, s, invoked, started⟩

/-- Model of `Button.get_image` (`src/core/button.py`, lines 122–189). -/
def get_image (env : DrawEnv) (s : State) : GetImageResult :=
  if s.failed then ⟨none, s, false, false⟩
  else
    match env.find_draw_script with
    | some _ =>
        if s.continuous_draw_mode && s.last_continuous_image.isSome then
          ⟨s.last_continuous_image, s, false, false⟩
        else if s.continuous_draw_mode then
          ⟨none, s, false, false⟩
        else
          match env.run_sync_with_output with
          | Except.error _ =>
              -- `except Exception` around the sync run: log, fall through
              image_file_fallback env s true false
          | Except.ok (success, image_bytes) =>
              if success && !image_bytes.isEmpty then
                if contains_seq DECKFS_IMG_START image_bytes then
                  -- continuous mode detected: switch, relaunch streaming,
                  -- return None for this call
                  ⟨none, { s with continuous_draw_mode := true },
                    true, true⟩
                else
                  match env.decode image_bytes with
                  | some image => ⟨some image, s, true, false⟩
                  | none => image_file_fallback env s true false
              else
                image_file_fallback env s true false
    | none => image_file_fallback env s false false

end Button

namespace FileWatcher

/-- Value of `FileWatcher.file_types` (`src/core/files.py`, line 27). -/
def file_types : List String := ["image", "background", "update", "action"]

/-- The check `len(name) >= 2 and name[:2].isdigit()` used for button
directory names. -/
def starts_with_two_digits (name : String) : Bool :=
  match name.toList with
  | c0 :: c1 :: _ => c0.isDigit && c1.isDigit
  | _ => false

/-- The `for file_type in self.file_types` loop of `_get_debounce_key`:
first role whose `"<role>."` prefix matches the filename. -/
def match_role (filename : String) : List String → Option String
  | [] => none
  | ft :: rest =>
      -- `filename.startswith(f"{file_type}.")`
      if (ft ++ ".").toList.isPrefixOf filename.toList then some ft
      else match_role filename rest

/-- Model of `FileWatcher._get_debounce_key` (`src/core/files.py`, lines 156–190),
with `os.path.relpath(file_path, config_dir).split(os.sep)` abstracted
into the `path_parts` input. -/
def get_debounce_key (path_parts : List String) : Option String :=
  match path_parts with
  | button_dir :: filename :: _ =>
      if starts_with_two_digits button_dir then
        match match_role filename file_types with
        | some file_type => some (button_dir ++ ":" ++ file_type)
        | none => none
      else none
  | _ => none   -- len(path_parts) < 2

/-- The file-event part of `FileWatcher.on_any_event`: the list of
`(event_type, debounce_key)` pairs published to the debouncer for one
non-directory filesystem event. -/
def on_file_event (event_type : String) (is_config_file : Bool)
    (path_parts : List String) : List (String × String) :=
  if event_type = "opened" || event_type = "closed_no_write" then []
  else if is_config_file then [("CONFIG_CHANGED", "config_yaml")]
  else
    match get_debounce_key path_parts with
    | some key => [("FILE_CHANGED", key)]
    | none => []

/-- Model of `FileWatcher._is_button_directory_event`, with
`os.path.relpath(dir_path, config_dir)` abstracted into the `rel_path`
input (`os.sep` is `/`). -/
def is_button_directory_event (rel_path : String) : Bool :=
  if rel_path.toList.contains '/' then false
  else starts_with_two_digits rel_path

/-- One publish performed by the watcher: event type, debounce key, and
the debouncer's `debounce_interval` at the moment of the publish. -/
structure Publish where
  event_type : String
  debounce_key : String
  interval_at_publish : ℚ
deriving DecidableEq, Repr

/-- Model of `FileWatcher._handle_directory_event` (`src/core/files.py`, lines
96–131): `modified` directory events are ignored; for a qualifying
button-directory event the debouncer's interval is set to `1.0`, the
`BUTTON_DIRECTORIES_CHANGED` event is published under the shared key
`"button_directories"`, and the interval is then set to `0.5`.  The
state is the debouncer's `debounce_interval`; the returned list records
the publishes made. -/
def handle_directory_event (interval : ℚ) (event_type : String)
    (src_rel : String) (dest_rel : Option String) :
    ℚ × List Publish :=
  if event_type = "modified" then (interval, [])
  else
    if is_button_directory_event src_rel
        || (match dest_rel with
            | some d => is_button_directory_event d
            | none => false) then
      -- self.debouncer.debounce_interval = 1.0
      let widened : ℚ := 1
      let publishes :=
        [⟨"BUTTON_DIRECTORIES_CHANGED", "button_directories", widened⟩]
      -- self.debouncer.debounce_interval = 0.5
      ((1 : ℚ) / 2, publishes)
    else (interval, [])

end FileWatcher

namespace FileUtils

/-- Model of `extract_button_id_from_path` (`src/utils/file_utils.py`, lines
50–77), with the path manipulation
(`os.path.isfile` / `dirname` / `relpath` / `split(os.sep)[0]`)
abstracted into the `dir_name` input: the top-level directory name of
the path relative to the config root.  `dir_name[:2].isdigit()` is
modelled over ASCII digits; `int(dir_name[:2])` is the two-digit value;
the surrounding `try/except` returns `0` on any failure. -/
def extract_button_id_from_path (dir_name : String) (max_buttons : Nat) :
    Nat :=
  match dir_name.toList with
  | c0 :: c1 :: _ =>
      if c0.isDigit && c1.isDigit then
        let button_id := (c0.toNat - 48) * 10 + (c1.toNat - 48)
        if 1 ≤ button_id ∧ button_id ≤ max_buttons then button_id
        else 0
      else 0
  | _ => 0   -- len(dir_name) < 2

/-- The two-digit prefix of a directory name as a number, when the first
two characters are digits (used to state what "encodes an id" means). -/
def two_digit_id (dir_name : String) : Option Nat :=
  match dir_name.toList with
  | c0 :: c1 :: _ =>
      if c0.isDigit && c1.isDigit then
        some ((c0.toNat - 48) * 10 + (c1.toNat - 48))
      else none
  | _ => none

end FileUtils

namespace Coordinator

/-- Observable steps of `_handle_button_directories_changed`. -/
inductive Action where
  | stop_watching
  | smart_reload
  | start_watching
deriving DecidableEq, Repr

/-- Coordinator-side state for the handler: whether the `FileWatcher` is
running, plus the trace of steps taken so far. -/
structure HState where
  watcher_running : Bool
  trace : List Action
deriving DecidableEq, Repr

/-- Model of `FileWatcher.stop_watching` as seen from the coordinator. -/
def stop_watching (s : HState) : HState :=
  { watcher_running := false, trace := s.trace ++ [Action.stop_watching] }

/-- Model of `FileWatcher.start_watching` as seen from the coordinator. -/
def start_watching (s : HState) : HState :=
  { watcher_running := true, trace := s.trace ++ [Action.start_watching] }

/-- Model of `self._smart_reload_affected_buttons(…)`: performs the reload (which
may raise — the `reload_result` oracle). -/
def smart_reload (reload_result : Except PyExc Unit) (s : HState) :
    HState × Except PyExc Unit :=
  ({ s with trace := s.trace ++ [Action.smart_reload] }, reload_result)

/-- Model of `Coordinator._handle_button_directories_changed`
(`src/core/coordinator.py`, lines 362–381): stop the watcher, run the
smart reload inside `try`, and `finally` restart the watcher; an
exception from the reload is re-raised after the `finally` block runs
(the returned `Except`). -/
def handle_button_directories_changed (reload_result : Except PyExc Unit)
    (s : HState) : HState × Except PyExc Unit :=
  let s1 := stop_watching s
  -- try:
  let (s2, r) := smart_reload reload_result s1
  -- finally:
  let s3 := start_watching s2
  (s3, r)

end Coordinator

/-! ## Concrete inputs used by the witness theorems -/

/-- A concrete debouncer state: one subscriber (id 7) for `"FILE_CHANGED"`,
nothing pending. -/
def dbgW : Debouncer.State Nat :=
  { debounce_interval := 1/2
    subscribers := fun t => if t = "FILE_CHANGED" then [7] else []
    pending_events := fun _ => none
    debounce_timers := fun _ => false }

/-- Three events of a concrete burst. -/
def evA : Debouncer.Event Nat := ⟨"FILE_CHANGED", 1, 10⟩

/-- Second event of the concrete burst. -/
def evB : Debouncer.Event Nat := ⟨"FILE_CHANGED", 2, 11⟩

/-- Last event of the concrete burst. -/
def evC : Debouncer.Event Nat := ⟨"FILE_CHANGED", 3, 12⟩

/-- A concrete process-manager state for the C2 witness: one stale crash
timestamp (400 s before the first restart) for `"background"`. -/
def pmW : ProcessManager.State :=
  { processes := fun _ => none
    crash_timestamps := fun k => if k = "background" then [-400] else [] }

/-- Concrete state for the C8 witness: a tracked `"background"` process,
nothing else. -/
def pmW2 : ProcessManager.State :=
  { processes := fun k => if k = "background" then some 4242 else none
    crash_timestamps := fun _ => [] }

/-- A fresh button state: not failed, not in continuous mode. -/
def btnFresh : Button.State :=
  { failed := false, continuous_draw_mode := false
    last_continuous_image := none }

/-- A button state already in continuous mode with a stored frame. -/
def btnCont : Button.State :=
  { failed := false, continuous_draw_mode := true
    last_continuous_image := some 42 }

/-- Draw environment whose script prints the continuous-mode marker. -/
def envMarker : Button.DrawEnv :=
  { find_draw_script := some "draw.py"
    run_sync_with_output := Except.ok (true, Button.DECKFS_IMG_START)
    decode := fun _ => none
    find_image_file := none
    path_exists := false
    open_file := none }

/-- Draw environment whose script prints a plain one-shot image,
decodable to image 99. -/
def envOneShot : Button.DrawEnv :=
  { find_draw_script := some "draw.py"
    run_sync_with_output := Except.ok (true, [1, 2, 3])
    decode := fun b => if b = [1, 2, 3] then some 99 else none
    find_image_file := none
    path_exists := false
    open_file := none }

/-! ## Theorems for the claims -/

namespace Debouncer

/-- Helper: a debounced burst makes no delivery at all. -/
lemma emit_burst_deliveries {α} (key : String) :
    ∀ (es : List (Event α)) (s : State α), (emit_burst s es key).2 = []
  | [], _ => rfl
  | e :: rest, s => by
      simp [emit_burst, emit, emit_burst_deliveries key rest]

/-- Helper: a debounced burst never changes the subscriber lists. -/
lemma emit_burst_subscribers {α} (key : String) :
    ∀ (es : List (Event α)) (s : State α),
      (emit_burst s es key).1.subscribers = s.subscribers
  | [], _ => rfl
  | e :: rest, s => by
      simpa [emit_burst, emit] using
        emit_burst_subscribers key rest (debounce_event s e key)

/-- Helper: after a nonempty debounced burst, the pending event under the
key is the last event of the burst (each call overwrote the previous
one). -/
lemma emit_burst_pending {α} (key : String) :
    ∀ (front : List (Event α)) (s : State α) (lastE : Event α),
      (emit_burst s (front ++ [lastE]) key).1.pending_events key
        = some lastE
  | [], s, lastE => by simp [emit_burst, emit, debounce_event]
  | e :: front', s, lastE => by
      simpa [emit_burst, emit] using
        emit_burst_pending key front' (debounce_event s e key) lastE

end Debouncer

/-- C1: for every sequence of N ≥ 1 `emit` calls with the same debounce
key, all before the pending timer fires, (a) no delivery happens during
the burst, (b) when the timer fires exactly one delivery of the last
event goes to each subscriber of its type, carrying the last call's type
and payload, and (c) every delivered event is the last one — no
overwritten intermediate event is ever delivered. -/
theorem c1_debounced_burst_delivers_only_last {α} (s : Debouncer.State α)
    (key : String) (es front : List (Debouncer.Event α))
    (lastE : Debouncer.Event α) (h : es = front ++ [lastE]) :
    (Debouncer.emit_burst s es key).2 = [] ∧
    (Debouncer.process_debounced_event
        (Debouncer.emit_burst s es key).1 key).2
      = (s.subscribers lastE.type).map (fun cb => (cb, lastE)) ∧
    ∀ d ∈ (Debouncer.process_debounced_event
        (Debouncer.emit_burst s es key).1 key).2, d.2 = lastE := by
  subst h
  refine ⟨Debouncer.emit_burst_deliveries key _ s, ?_, ?_⟩
  · rw [Debouncer.process_debounced_event]
    rw [Debouncer.emit_burst_pending key front s lastE]
    simp [Debouncer.emit_event, Debouncer.emit_burst_subscribers]
  · intro d hd
    rw [Debouncer.process_debounced_event,
      Debouncer.emit_burst_pending key front s lastE] at hd
    simp [Debouncer.emit_event] at hd
    obtain ⟨cb, _, rfl⟩ := hd
    rfl

/-- Witness for C1: a concrete three-event burst under one key delivers
nothing during the burst and, at timer expiry, exactly the last event to
the single subscriber. -/
theorem c1_witness :
    (Debouncer.emit_burst dbgW [evA, evB, evC] "01:image").2 = [] ∧
    (Debouncer.process_debounced_event
        (Debouncer.emit_burst dbgW [evA, evB, evC] "01:image").1
        "01:image").2
      = (dbgW.subscribers evC.type).map (fun cb => (cb, evC)) ∧
    ∀ d ∈ (Debouncer.process_debounced_event
        (Debouncer.emit_burst dbgW [evA, evB, evC] "01:image").1
        "01:image").2, d.2 = evC :=
  c1_debounced_burst_delivers_only_last dbgW "01:image" [evA, evB, evC]
    [evA, evB] evC rfl

/-- C9: `subscribe` appends without deduplication — subscribing the same
callback twice for one event type makes a non-debounced emit of that
type invoke the callback exactly twice, and a single `unsubscribe`
removes only one of the two registrations, so the emit still invokes it
exactly once. -/
theorem c9_subscribe_no_dedup {α} (s : Debouncer.State α) (t : String)
    (cb : Nat) (d : α) (ts : ℚ) (h : cb ∉ s.subscribers t) :
    (((Debouncer.emit
        (Debouncer.subscribe (Debouncer.subscribe s t cb) t cb)
        t d ts none).2).map Prod.fst).count cb = 2 ∧
    (((Debouncer.emit
        (Debouncer.unsubscribe
          (Debouncer.subscribe (Debouncer.subscribe s t cb) t cb) t cb)
        t d ts none).2).map Prod.fst).count cb = 1 := by
  have hc : (s.subscribers t).count cb = 0 := List.count_eq_zero.mpr h
  constructor
  · simp [Debouncer.emit, Debouncer.emit_event, Debouncer.subscribe,
      List.map_map, Function.comp_def, List.count_append, hc]
  · simp [Debouncer.emit, Debouncer.emit_event, Debouncer.subscribe,
      Debouncer.unsubscribe, List.map_map, Function.comp_def,
      List.count_erase_self, List.count_append, hc]

/-- Witness for C9: subscribing callback 9 twice to `"FILE_CHANGED"` in a
concrete state makes an emit deliver to it twice; one unsubscribe leaves
exactly one delivery. -/
theorem c9_witness :
    (9 : Nat) ∉ dbgW.subscribers "FILE_CHANGED" ∧
    ((((Debouncer.emit
        (Debouncer.subscribe
          (Debouncer.subscribe dbgW "FILE_CHANGED" 9) "FILE_CHANGED" 9)
        "FILE_CHANGED" 0 0 none).2).map Prod.fst).count 9 = 2 ∧
    (((Debouncer.emit
        (Debouncer.unsubscribe
          (Debouncer.subscribe
            (Debouncer.subscribe dbgW "FILE_CHANGED" 9) "FILE_CHANGED" 9)
          "FILE_CHANGED" 9)
        "FILE_CHANGED" 0 0 none).2).map Prod.fst).count 9 = 1) :=
  ⟨by simp [dbgW], c9_subscribe_no_dedup dbgW "FILE_CHANGED" 9 0 0
    (by simp [dbgW])⟩

/-- C2: six `restart_script` calls for one role within a single
300-second window (relaunch always succeeding): the first five return
success, the sixth returns failure; entries of the crash window that are
at least 300 seconds old at the first call are pruned and do not count
toward the limit of 5. -/
theorem c2_crash_window_six_restarts (s : ProcessManager.State)
    (key : String) (t1 t2 t3 t4 t5 t6 : ℚ)
    (h12 : t1 ≤ t2) (h23 : t2 ≤ t3) (h34 : t3 ≤ t4)
    (h45 : t4 ≤ t5) (h56 : t5 ≤ t6) (hwin : t6 - t1 < 300)
    (hold : ∀ ts ∈ s.crash_timestamps key, 300 ≤ t1 - ts) :
    (ProcessManager.restart_seq s [t1, t2, t3, t4, t5, t6] key).2
      = [true, true, true, true, true, false] := by
  have p1 : ProcessManager.prune t1 (s.crash_timestamps key) = [] := by
    refine List.filter_eq_nil_iff.mpr ?_
    intro x hx
    have := hold x hx
    simp only [decide_eq_true_eq, ProcessManager.restart_window, not_lt]
    linarith
  have p2 : ProcessManager.prune t2 [t1] = [t1] := by
    refine List.filter_eq_self.mpr ?_
    intro x hx
    simp only [List.mem_singleton] at hx
    simp only [decide_eq_true_eq, ProcessManager.restart_window]
    subst hx; linarith
  have p3 : ProcessManager.prune t3 [t1, t2] = [t1, t2] := by
    refine List.filter_eq_self.mpr ?_
    intro x hx
    simp only [List.mem_cons, List.not_mem_nil, or_false] at hx
    simp only [decide_eq_true_eq, ProcessManager.restart_window]
    rcases hx with rfl | rfl <;> linarith
  have p4 : ProcessManager.prune t4 [t1, t2, t3] = [t1, t2, t3] := by
    refine List.filter_eq_self.mpr ?_
    intro x hx
    simp only [List.mem_cons, List.not_mem_nil, or_false] at hx
    simp only [decide_eq_true_eq, ProcessManager.restart_window]
    rcases hx with rfl | rfl | rfl <;> linarith
  have p5 : ProcessManager.prune t5 [t1, t2, t3, t4] = [t1, t2, t3, t4] := by
    refine List.filter_eq_self.mpr ?_
    intro x hx
    simp only [List.mem_cons, List.not_mem_nil, or_false] at hx
    simp only [decide_eq_true_eq, ProcessManager.restart_window]
    rcases hx with rfl | rfl | rfl | rfl <;> linarith
  have p6 : ProcessManager.prune t6 [t1, t2, t3, t4, t5]
      = [t1, t2, t3, t4, t5] := by
    refine List.filter_eq_self.mpr ?_
    intro x hx
    simp only [List.mem_cons, List.not_mem_nil, or_false] at hx
    simp only [decide_eq_true_eq, ProcessManager.restart_window]
    rcases hx with rfl | rfl | rfl | rfl | rfl <;> linarith
  simp only [ProcessManager.restart_seq, ProcessManager.restart_script,
    ProcessManager.restart_limits, if_pos rfl, p1, List.nil_append]
  simp [p2, p3, p4, p5, p6]

/-- Witness for C2: six restarts of `"background"` at times 0…5 s, with
one 400-second-old window entry, give five successes then a failure. -/
theorem c2_witness :
    (ProcessManager.restart_seq pmW [0, 1, 2, 3, 4, 5] "background").2
      = [true, true, true, true, true, false] :=
  c2_crash_window_six_restarts pmW "background" 0 1 2 3 4 5
    (by norm_num) (by norm_num) (by norm_num) (by norm_num) (by norm_num)
    (by norm_num)
    (by intro ts hts; simp [pmW] at hts; subst hts; norm_num)

/-- C8: `stop_script` is idempotent and leak-free — when no process is
tracked for the role it returns the state unchanged (and never raises);
in every case the crash-window state is untouched and, by the time it
returns, no tracking record remains for the role, even when terminating
the process raised an error (the `term` oracle). -/
theorem c8_stop_script_idempotent_cleanup (s : ProcessManager.State)
    (script_type : String) (term : Except PyExc Unit) :
    (s.processes script_type = none →
      ProcessManager.stop_script s script_type term = s) ∧
    (ProcessManager.stop_script s script_type term).crash_timestamps
      = s.crash_timestamps ∧
    (ProcessManager.stop_script s script_type term).processes script_type
      = none := by
  refine ⟨fun h => by simp [ProcessManager.stop_script, h], ?_, ?_⟩
  · unfold ProcessManager.stop_script
    cases h : s.processes script_type <;> simp
  · unfold ProcessManager.stop_script
    cases h : s.processes script_type <;> simp [h]

/-- Witness for C8: stopping the untracked `"action"` role leaves the
state unchanged; stopping the tracked `"background"` role whose
termination raises still removes the record and keeps the crash
window. -/
theorem c8_witness :
    (pmW2.processes "action" = none →
      ProcessManager.stop_script pmW2 "action" (Except.ok ()) = pmW2) ∧
    (ProcessManager.stop_script pmW2 "background"
        (Except.error PyExc.otherError)).crash_timestamps
      = pmW2.crash_timestamps ∧
    (ProcessManager.stop_script pmW2 "background"
        (Except.error PyExc.otherError)).processes "background" = none :=
  ⟨(c8_stop_script_idempotent_cleanup pmW2 "action" (Except.ok ())).1,
   (c8_stop_script_idempotent_cleanup pmW2 "background"
      (Except.error PyExc.otherError)).2.1,
   (c8_stop_script_idempotent_cleanup pmW2 "background"
      (Except.error PyExc.otherError)).2.2⟩

/-- C5 (code-bug evidence): the claim — every exception raised while
resolving or executing a script is caught and converted to a boolean
failure — fails on the code.  At the failing input (an `update` script
`update.py` whose synchronous `subprocess.run` raises `TimeoutExpired`),
the `except Exception` handler of `start_script` evaluates a log
f-string that references the unbound local `script_name`
(`src/core/processes.py`, line 73), so a `NameError` propagates out of
`start_script` instead of a boolean result. -/
theorem c5_start_script_raises_on_update_timeout :
    ProcessManager.start_script
      { is_running := false
        find_script := some "update.py"
        executor_result :=
          ProcessManager.execute_update (Except.error PyExc.timeoutExpired) }
      "update"
      = Except.error PyExc.nameError := by
  rfl

/-- C3: with a `draw.*` script present, the button not failed and not in
continuous mode, `get_image` runs the script once and captures its
output; (1) if the captured stdout contains `DECKFS_IMG_START` the
button switches to continuous mode, the script is relaunched in
streaming form and the call returns none; (2) if the marker is absent
the entire stdout is decoded directly as the one-shot image; (3) once in
continuous mode, `get_image` returns the most recently streamed frame
(none if no frame yet) without re-invoking the script. -/
theorem c3_get_image_draw_modes (env : Button.DrawEnv) (s : Button.State)
    (p : String) (bytes : List Nat)
    (hscript : env.find_draw_script = some p)
    (hrun : env.run_sync_with_output = Except.ok (true, bytes))
    (hfail : s.failed = false) :
    (s.continuous_draw_mode = false →
      Button.contains_seq Button.DECKFS_IMG_START bytes = true →
      Button.get_image env s
        = ⟨none, { s with continuous_draw_mode := true }, true, true⟩) ∧
    (s.continuous_draw_mode = false →
      Button.contains_seq Button.DECKFS_IMG_START bytes = false →
      bytes ≠ [] →
      ∀ img, env.decode bytes = some img →
        Button.get_image env s = ⟨some img, s, true, false⟩) ∧
    (s.continuous_draw_mode = true →
      Button.get_image env s
        = ⟨s.last_continuous_image, s, false, false⟩) := by
  refine ⟨?_, ?_, ?_⟩
  · intro hcont hmark
    have hne : bytes ≠ [] := by
      intro h
      rw [h] at hmark
      simp [Button.contains_seq, Button.DECKFS_IMG_START] at hmark
    simp [Button.get_image, hscript, hrun, hfail, hcont, hmark, hne]
  · intro hcont hmark hne img hdec
    simp [Button.get_image, hscript, hrun, hfail, hcont, hmark, hne, hdec]
  · intro hcont
    cases h : s.last_continuous_image with
    | none => simp [Button.get_image, hscript, hfail, hcont, h]
    | some img => simp [Button.get_image, hscript, hfail, hcont, h]

/-- Witness for C3: a marker-printing script switches a fresh button to
continuous mode and returns none; a plain-output script yields the
decoded one-shot image; a button already in continuous mode returns its
stored frame without invoking the script. -/
theorem c3_witness :
    Button.get_image envMarker btnFresh
      = ⟨none, ⟨false, true, none⟩, true, true⟩ ∧
    Button.get_image envOneShot btnFresh = ⟨some 99, btnFresh, true, false⟩ ∧
    Button.get_image envMarker btnCont = ⟨some 42, btnCont, false, false⟩ :=
  ⟨(c3_get_image_draw_modes envMarker btnFresh "draw.py"
      Button.DECKFS_IMG_START rfl rfl rfl).1 rfl (by decide),
   (c3_get_image_draw_modes envOneShot btnFresh "draw.py"
      [1, 2, 3] rfl rfl rfl).2.1 rfl (by decide) (by decide) 99 rfl,
   (c3_get_image_draw_modes envMarker btnCont "draw.py"
      Button.DECKFS_IMG_START rfl rfl rfl).2.2 rfl⟩

/-- C6: every `BUTTON_DIRECTORIES_CHANGED` handling stops the watcher
first, then runs the affected-button reload, then restarts the watcher
— also when the reload raises (`r = Except.error _`, re-raised after the
`finally`); the handler never ends with the watcher stopped. -/
theorem c6_watcher_restarted_after_reload (s : Coordinator.HState)
    (r : Except PyExc Unit) :
    ((Coordinator.handle_button_directories_changed r s).1).watcher_running
      = true ∧
    ((Coordinator.handle_button_directories_changed r s).1).trace
      = s.trace ++ [Coordinator.Action.stop_watching,
          Coordinator.Action.smart_reload,
          Coordinator.Action.start_watching] ∧
    (Coordinator.handle_button_directories_changed r s).2 = r := by
  refine ⟨rfl, ?_, rfl⟩
  simp [Coordinator.handle_button_directories_changed,
    Coordinator.stop_watching, Coordinator.smart_reload,
    Coordinator.start_watching]

/-- C4 (code-bug evidence): the claim lists five role prefixes, but
`file_types` (`src/core/files.py`, line 27) omits `draw`: a change to
`01_clock/draw.py` produces no event at all, although
`Button.file_changed` (`src/core/button.py`, line 205) has a handler for
`draw.*` changes that can then never fire.  Changes to the four listed
prefixes produce the debounced `FILE_CHANGED` event under
`"<buttonDirName>:<role>"`, and an unmatched filename produces none. -/
theorem c4_draw_changes_produce_no_event :
    FileWatcher.on_file_event "modified" false ["01_clock", "draw.py"]
      = [] ∧
    FileWatcher.on_file_event "modified" false ["01_clock", "image.png"]
      = [("FILE_CHANGED", "01_clock:image")] ∧
    FileWatcher.on_file_event "modified" false ["01_clock", "background.sh"]
      = [("FILE_CHANGED", "01_clock:background")] ∧
    FileWatcher.on_file_event "modified" false ["01_clock", "update.py"]
      = [("FILE_CHANGED", "01_clock:update")] ∧
    FileWatcher.on_file_event "modified" false ["01_clock", "action.js"]
      = [("FILE_CHANGED", "01_clock:action")] ∧
    FileWatcher.on_file_event "modified" false ["01_clock", "notes.txt"]
      = [] := by
  refine ⟨rfl, rfl, rfl, rfl, rfl, rfl⟩

/-- C7 (counterexample): with the debouncer's interval at the
configuration default 0.1 s, a qualifying button-directory event leaves
the interval at 0.5 s afterwards — it is not restored to its value
before the publish, refuting "for every starting interval value the
interval after the publish equals its value before". -/
theorem c7_counterexample :
    (FileWatcher.handle_directory_event (1/10) "created" "01_clock"
        none).1 ≠ (1/10 : ℚ) := by
  have h : (FileWatcher.handle_directory_event (1/10) "created" "01_clock"
      none).1 = 1/2 := rfl
  rw [h]
  norm_num

/-- C7 (amended): for every qualifying (non-`modified`,
button-directory) structural event the watcher publishes
`BUTTON_DIRECTORIES_CHANGED` under the shared key with the interval
widened to 1.0 s for the publish, and afterwards sets the interval to
the fixed value 0.5 s (the `Debouncer` default) — so the interval after
the publish equals its starting value only when that value was 0.5. -/
theorem c7_interval_widened_then_reset (interval : ℚ) (et src : String)
    (dest : Option String) (hne : et ≠ "modified")
    (hq : FileWatcher.is_button_directory_event src = true) :
    (FileWatcher.handle_directory_event interval et src dest).2
      = [⟨"BUTTON_DIRECTORIES_CHANGED", "button_directories", 1⟩] ∧
    (FileWatcher.handle_directory_event interval et src dest).1
      = 1/2 := by
  constructor <;> simp [FileWatcher.handle_directory_event, hne, hq]

/-- Witness for C7 (amended): a `created` event on button directory
`01_clock`, starting from interval 0.1 s, publishes once at interval
1.0 s and ends with the interval at 0.5 s. -/
theorem c7_witness :
    (FileWatcher.handle_directory_event (1/10) "created" "01_clock"
        none).2
      = [⟨"BUTTON_DIRECTORIES_CHANGED", "button_directories", 1⟩] ∧
    (FileWatcher.handle_directory_event (1/10) "created" "01_clock"
        none).1 = 1/2 :=
  c7_interval_widened_then_reset (1/10) "created" "01_clock" none
    (by decide) (by decide)

/-- C10: `extract_button_id_from_path` is total and range-safe: for
every top-level directory name and `max_buttons` it returns `0` or an id
in `[1, max_buttons]`; it returns `0` whenever the name does not begin
with two digits, and whenever the two-digit prefix encodes an id outside
`[1, max_buttons]` (including `00`). -/
theorem c10_extract_button_id_safe (dir_name : String)
    (max_buttons : Nat) :
    (FileUtils.extract_button_id_from_path dir_name max_buttons = 0 ∨
      (1 ≤ FileUtils.extract_button_id_from_path dir_name max_buttons ∧
        FileUtils.extract_button_id_from_path dir_name max_buttons
          ≤ max_buttons)) ∧
    (FileUtils.two_digit_id dir_name = none →
      FileUtils.extract_button_id_from_path dir_name max_buttons = 0) ∧
    (∀ v, FileUtils.two_digit_id dir_name = some v →
      (v < 1 ∨ max_buttons < v) →
      FileUtils.extract_button_id_from_path dir_name max_buttons = 0) := by
  unfold FileUtils.extract_button_id_from_path FileUtils.two_digit_id
  rcases hl : dir_name.toList with _ | ⟨c0, _ | ⟨c1, rest⟩⟩
  · simp
  · simp
  · by_cases hd : (c0.isDigit && c1.isDigit) = true
    · by_cases hv : 1 ≤ (c0.toNat - 48) * 10 + (c1.toNat - 48) ∧
          (c0.toNat - 48) * 10 + (c1.toNat - 48) ≤ max_buttons
      · refine ⟨Or.inr (by simp [hd, hv]), by simp [hd], ?_⟩
        intro v hsome hout
        simp only [hd, if_true] at hsome
        injection hsome with hv'
        subst hv'
        omega
      · refine ⟨Or.inl (by simp [hd, hv]), by simp [hd], ?_⟩
        intro v _ _
        simp [hd, hv]
    · simp [hd]

/-- Witness for C10: `"ab"` (no digit prefix) and `"00_x"` (id 0) give
button id 0, while `"07_button"` with 15 keys gives the in-range id
7. -/
theorem c10_witness :
    FileUtils.extract_button_id_from_path "ab" 15 = 0 ∧
    FileUtils.extract_button_id_from_path "00_x" 15 = 0 ∧
    (FileUtils.extract_button_id_from_path "07_button" 15 = 0 ∨
      (1 ≤ FileUtils.extract_button_id_from_path "07_button" 15 ∧
        FileUtils.extract_button_id_from_path "07_button" 15 ≤ 15)) :=
  ⟨(c10_extract_button_id_safe "ab" 15).2.1 (by decide),
   (c10_extract_button_id_safe "00_x" 15).2.2 0 (by decide)
     (Or.inl (by decide)),
   (c10_extract_button_id_safe "07_button" 15).1⟩
